import Mathlib

/-!
Verification of the obsidian-claude-code ACP client engine.

The definitions below shallowly embed:
- `src/acpClient.ts` (`ObsidianAcpClient`): state, `connect`, `disconnect`,
  `sendMessage`, `sessionUpdate`, `readTextFile`, `writeTextFile`,
  `requestPermission`, `isConnected`, `getSessionId`;
- `src/acp-core/factory.ts`: the implementation registry
  (`registerImplementation`, `createAcpClient`, `getRegisteredImplementations`,
  `clearImplementations`);
- `src/acp-core/interfaces/types.ts`: `AcpError` and the permission /
  stream-event data model;
- the permission correlation engine and streaming facade of the zed transport
  adapter, whose source file is exported by `src/acp-core/adapters/index.ts`
  but is not present in the sources; those definitions are modelled from the
  specification and are marked as such.

Asynchronous effects are modelled by explicit state passing: each method
returns its successor state together with the list of host callbacks it fired
(`ClientEvent`) and, where the source can reject, an `Except` value.
-/

namespace ObsidianClaudeCode

/-- Content block variants of the protocol (`types.ts` `ContentBlock`): text,
image, audio, resource link, embedded resource. Binary payloads are opaque
encoded strings with a media type. -/
inductive ContentBlock where
  | text (text : String)
  | image (data : String) (mimeType : String)
  | audio (data : String) (mimeType : String)
  | resourceLink (uri : String) (name : String)
  | resource (uri : String)
deriving DecidableEq, Repr

/-- Wire-level session update variants (`types.ts` `SessionUpdate`). Only the
payload fields read by `ObsidianAcpClient.sessionUpdate` are carried; the
remaining variants are payload-free markers since that method ignores them. -/
inductive SessionUpdate where
  | userMessageChunk (content : ContentBlock)
  | agentMessageChunk (content : ContentBlock)
  | agentThoughtChunk (content : ContentBlock)
  | toolCall (toolCallId : String) (title : Option String) (status : Option String)
  | toolCallUpdate (toolCallId : Option String) (status : Option String)
  | plan
  | availableCommandsUpdate
  | currentModeUpdate
  | configOptionUpdate
  | sessionInfoUpdate
deriving DecidableEq, Repr

/-- Host callbacks of `AcpClientEvents` (`src/acpClient.ts` lines 5-12); one
constructor per callback the client can fire. -/
inductive ClientEvent where
  | onMessage (text : String)
  | onToolCall (title : String) (status : String)
  | onError (message : String)
  | onConnected
  | onDisconnected
deriving DecidableEq, Repr

/-- Handle to the spawned child process. `alive` is false once a kill signal
has been delivered. -/
structure ProcessHandle where
  alive : Bool
deriving DecidableEq, Repr

/-- Mutable fields of `ObsidianAcpClient`: `process`, `connection` (true iff
the TypeScript field is non-null) and `currentSessionId`. -/
structure ClientState where
  process : Option ProcessHandle
  connection : Bool
  currentSessionId : Option String
deriving DecidableEq, Repr

/-- Field values a freshly constructed `ObsidianAcpClient` starts from:
all three fields are null. -/
def initialState : ClientState :=
  { process := none, connection := false, currentSessionId := none }

namespace ObsidianAcpClient

/-- JavaScript truthiness of a nullable string: null and the empty string are
falsy. Used where the source tests `!this.currentSessionId`. -/
def truthyId : Option String → Bool
  | none => false
  | some v => !(v == "")

/-- Embeds `ObsidianAcpClient.isConnected` (lines 145-147):
`this.connection !== null && this.currentSessionId !== null`. -/
def isConnected (s : ClientState) : Bool :=
  s.connection && s.currentSessionId.isSome

/-- Embeds `ObsidianAcpClient.getSessionId` (lines 149-151). -/
def getSessionId (s : ClientState) : Option String :=
  s.currentSessionId

/-- Embeds `ObsidianAcpClient.sessionUpdate` (lines 31-49). The switch handles
`agent_message_chunk` (forwarding `onMessage` only for a text content block),
`tool_call` and `tool_call_update`; every other variant falls into the default
branch and produces no callback. -/
def sessionUpdate : SessionUpdate → List ClientEvent
  | .agentMessageChunk (.text t) => [.onMessage t]
  | .agentMessageChunk _ => []
  | .toolCall _ title status =>
      [.onToolCall (title.getD "Tool") (status.getD "running")]
  | .toolCallUpdate toolCallId status =>
      [.onToolCall ("Tool " ++ toolCallId.getD "unknown") (status.getD "updated")]
  | _ => []

/-- Environment of one `connect` call: whether each awaited step succeeds, and
the session id the agent would return. `spawnOk` is whether the `spawn` call
itself returns; `stdinPiped` / `stdoutPiped` model the stream-availability
check of line 78; `handshakeOk` models `connection.initialize` resolving;
`newSessionOk` models `connection.newSession` resolving. -/
structure ConnectEnv where
  spawnOk : Bool
  stdinPiped : Bool
  stdoutPiped : Bool
  handshakeOk : Bool
  newSessionOk : Bool
  sessionId : String
deriving DecidableEq, Repr

/-- The four sequential steps of `connect` (lines 70, 78, 89, 102). -/
inductive ConnectStep where
  | spawn
  | verifyStreams
  | handshake
  | newSession
deriving DecidableEq, Repr

/-- Observable outcome of one `connect` call: the successor state, the steps
reached in order, whether the promise rejected, how many kill signals were
sent to the child during the call, and the callbacks fired. -/
structure ConnectResult where
  state : ClientState
  steps : List ConnectStep
  failed : Bool
  killSignals : Nat
  events : List ClientEvent
deriving DecidableEq, Repr

/-- Embeds `ObsidianAcpClient.connect` (lines 67-115). The body runs spawn,
the stream-availability check, `initialize` and `newSession` in order inside a
try block; the catch block fires `onError` and rethrows. No kill signal is sent
on any path of this method, and the fields assigned before a failing step keep
their new values (`process` after spawn, `connection` after line 86). -/
def connect (env : ConnectEnv) (s : ClientState) : ConnectResult :=
  if env.spawnOk = false then
    { state := s, steps := [.spawn], failed := true, killSignals := 0,
      events := [.onError "spawn failed"] }
  else
    let s1 : ClientState := { s with process := some { alive := true } }
    if (env.stdinPiped && env.stdoutPiped) = false then
      { state := s1, steps := [.spawn, .verifyStreams], failed := true, killSignals := 0,
        events := [.onError "Failed to get process streams"] }
    else
      let s2 : ClientState := { s1 with connection := true }
      if env.handshakeOk = false then
        { state := s2, steps := [.spawn, .verifyStreams, .handshake], failed := true,
          killSignals := 0, events := [.onError "initialize failed"] }
      else if env.newSessionOk = false then
        { state := s2, steps := [.spawn, .verifyStreams, .handshake, .newSession],
          failed := true, killSignals := 0, events := [.onError "newSession failed"] }
      else
        { state := { s2 with currentSessionId := some env.sessionId },
          steps := [.spawn, .verifyStreams, .handshake, .newSession],
          failed := false, killSignals := 0, events := [.onConnected] }

/-- Observable outcome of one `disconnect` call. -/
structure DisconnectResult where
  state : ClientState
  killSignals : Nat
  events : List ClientEvent
deriving DecidableEq, Repr

/-- Embeds `ObsidianAcpClient.disconnect` (lines 135-143): kill the process if
one is held, null all three fields, fire `onDisconnected`. The source body has
no throw path, so the model is a total function. -/
def disconnect (s : ClientState) : DisconnectResult :=
  { state := { process := none, connection := false, currentSessionId := none },
    killSignals := if s.process.isSome then 1 else 0,
    events := [.onDisconnected] }

/-- Calls `disconnect` the given number of times, threading the state and
concatenating the fired callbacks. -/
def disconnectN : Nat → ClientState → ClientState × List ClientEvent
  | 0, s => (s, [])
  | n + 1, s =>
    let r := disconnect s
    let rest := disconnectN n r.state
    (rest.1, r.events ++ rest.2)

/-- Embeds `ObsidianAcpClient.sendMessage` (lines 117-133): throw
`"Not connected"` when `!this.connection || !this.currentSessionId`, otherwise
await `connection.prompt` (whose resolution or rejection is the `promptResult`
environment) and return void. The method fires no `AcpClientEvents` callback
itself. -/
def sendMessage (promptResult : Except String String) (s : ClientState)
    (text : String) : Except String Unit :=
  if (!s.connection || !truthyId s.currentSessionId) = true then
    Except.error "Not connected"
  else
    promptResult.map (fun _ => ())

/-- Request of the agent-facing `readTextFile` call (`types.ts`
`ReadTextFileParams`). -/
structure ReadTextFileRequest where
  path : String
deriving DecidableEq, Repr

/-- Result of `readTextFile` (`types.ts` `ReadTextFileResult`). -/
structure ReadTextFileResponse where
  content : String
deriving DecidableEq, Repr

/-- Request of the agent-facing `writeTextFile` call. -/
structure WriteTextFileRequest where
  path : String
  content : String
deriving DecidableEq, Repr

/-- Empty success result of `writeTextFile` (`types.ts` `WriteTextFileResult`,
an empty object type as the protocol demands). -/
structure WriteTextFileResponse where
deriving DecidableEq, Repr

/-- Embeds `ObsidianAcpClient.readTextFile` (lines 59-65): unconditionally
resolves with empty content; the body has no throw path. The client takes no
host file-system handler at all. -/
def readTextFile (params : ReadTextFileRequest) : Except String ReadTextFileResponse :=
  Except.ok { content := "" }

/-- Embeds `ObsidianAcpClient.writeTextFile` (lines 51-57): unconditionally
resolves with the empty success object; the body has no throw path. -/
def writeTextFile (params : WriteTextFileRequest) : Except String WriteTextFileResponse :=
  Except.ok {}

end ObsidianAcpClient

/-! Registry of ACP implementations, embedding `src/acp-core/factory.ts`. -/

/-- The implementation names of the factory
(`type AcpImplementation = "zed" | "native"`). -/
inductive AcpImplementation where
  | zed
  | native
deriving DecidableEq, Repr

/-- String form of an implementation name, as it appears in error messages. -/
def AcpImplementation.name : AcpImplementation → String
  | .zed => "zed"
  | .native => "native"

/-- Insertion-ordered association list with JavaScript `Map.set` semantics:
overwriting an existing key keeps its original position, a new key is appended
at the end. -/
def mapSet {K V : Type} [DecidableEq K] : List (K × V) → K → V → List (K × V)
  | [], k, v => [(k, v)]
  | (k0, v0) :: rest, k, v =>
    if k0 = k then (k0, v) :: rest else (k0, v0) :: mapSet rest k v

/-- JavaScript `Map.get`: the value stored under the key, if any. -/
def mapGet {K V : Type} [DecidableEq K] : List (K × V) → K → Option V
  | [], _ => none
  | (k0, v0) :: rest, k => if k0 = k then some v0 else mapGet rest k

/-- JavaScript `Array.prototype.join` with separator `", "`, as used by the
factory to list registered names. -/
def joinComma : List String → String
  | [] => ""
  | [a] => a
  | a :: b :: rest => a ++ ", " ++ joinComma (b :: rest)

/-- Module state of `factory.ts`: the `implementations` map (a name-to-factory
table, iterated in insertion order) and the `defaultImplementation` variable.
A factory is a function from an optional config to a client. -/
structure Registry (Client Config : Type) where
  impls : List (AcpImplementation × (Option Config → Client))
  defaultImplementation : AcpImplementation

/-- Embeds `registerImplementation` (factory.ts lines 30-32). -/
def registerImplementation {Client Config : Type} (reg : Registry Client Config)
    (nm : AcpImplementation) (factory : Option Config → Client) :
    Registry Client Config :=
  { reg with impls := mapSet reg.impls nm factory }

/-- Embeds `getRegisteredImplementations` (factory.ts lines 86-88):
`Array.from(implementations.keys())`. -/
def getRegisteredImplementations {Client Config : Type}
    (reg : Registry Client Config) : List AcpImplementation :=
  reg.impls.map Prod.fst

/-- Embeds `hasImplementation` (factory.ts lines 79-81). -/
def hasImplementation {Client Config : Type} (reg : Registry Client Config)
    (nm : AcpImplementation) : Bool :=
  (mapGet reg.impls nm).isSome

/-- The error message built by `createAcpClient` (factory.ts lines 66-69):
`Implementation "NAME" is not registered. Available: ...` followed by the
registered names joined with `", "`. -/
def unknownImplementationMessage (implName : String) (registered : List String) :
    String :=
  "Implementation \"" ++ implName ++ "\" is not registered. Available: "
    ++ joinComma registered

/-- Embeds `createAcpClient` (factory.ts lines 58-73): resolve the explicit
name or the default, look the factory up, throw the listing error message on a
miss, otherwise return the factory applied to the config. -/
def createAcpClient {Client Config : Type} (reg : Registry Client Config)
    (config : Option Config) (implementation : Option AcpImplementation) :
    Except String Client :=
  let implName := implementation.getD reg.defaultImplementation
  match mapGet reg.impls implName with
  | none =>
      Except.error (unknownImplementationMessage implName.name
        ((getRegisteredImplementations reg).map AcpImplementation.name))
  | some factory => Except.ok (factory config)

/-- Embeds `clearImplementations` (factory.ts lines 93-96):
`implementations.clear()` empties the table and `defaultImplementation` is
reset to `"zed"`. Nothing is re-registered by this function. -/
def clearImplementations {Client Config : Type} (reg : Registry Client Config) :
    Registry Client Config :=
  { impls := [], defaultImplementation := .zed }

/-! Protocol error type, embedding `types.ts` `AcpError` (lines 895-933).
The optional `data` payload is omitted: no constructor used here sets it. -/

/-- The `AcpError` class: `name` is always `"AcpError"`, plus a numeric code
and a message. -/
structure AcpError where
  name : String
  code : Int
  message : String
deriving DecidableEq, Repr

/-- Embeds the `AcpError` constructor (types.ts lines 899-904). -/
def AcpError.make (code : Int) (message : String) : AcpError :=
  { name := "AcpError", code := code, message := message }

/-- Embeds `AcpError.methodNotFound` (types.ts lines 914-916). -/
def AcpError.methodNotFound (method : String) : AcpError :=
  AcpError.make (-32601) ("Method not found: " ++ method)

/-- Embeds `AcpError.parseError` (types.ts lines 906-908). -/
def AcpError.parseError (message : Option String) : AcpError :=
  AcpError.make (-32700) (message.getD "Parse error")

/-- Embeds `AcpError.internalError` (types.ts lines 922-924). -/
def AcpError.internalError (message : Option String) : AcpError :=
  AcpError.make (-32603) (message.getD "Internal error")

/-! Permission data model, embedding the permission section of `types.ts`
(lines 647-697). -/

/-- The four mutually exclusive permission option kinds. -/
inductive PermissionOptionKind where
  | allowOnce
  | allowAlways
  | rejectOnce
  | rejectAlways
deriving DecidableEq, Repr

/-- One offered permission option (`types.ts` `PermissionOption`). -/
structure PermissionOption where
  optionId : String
  name : String
  kind : PermissionOptionKind
deriving DecidableEq, Repr

/-- The tool call named by a permission request (`types.ts`
`PermissionToolCall`). -/
structure PermissionToolCall where
  toolCallId : String
  title : Option String
deriving DecidableEq, Repr

/-- Protocol-level permission request (`types.ts` `PermissionRequestParams`). -/
structure PermissionRequestParams where
  sessionId : String
  toolCall : PermissionToolCall
  options : List PermissionOption
deriving DecidableEq, Repr

/-- Protocol-level permission outcome (`types.ts` `PermissionOutcome`):
either cancelled, or selected with the id of one offered option. -/
inductive PermissionOutcome where
  | cancelled
  | selected (optionId : String)
deriving DecidableEq, Repr

/-- Protocol-level permission response (`types.ts` `PermissionResponse`). -/
structure PermissionResponse where
  outcome : PermissionOutcome
deriving DecidableEq, Repr

/-- Simplified permission request handed to the host handler (`types.ts`
`PermissionRequest`). -/
structure PermissionRequest where
  toolCall : PermissionToolCall
  options : Option (List PermissionOption)
  description : Option String
deriving DecidableEq, Repr

/-- Host handler decision (`types.ts` `PermissionHandlerResponse`):
granted with an optional option id, or denied with an optional reason. -/
inductive PermissionHandlerResponse where
  | granted (optionId : Option String)
  | denied (reason : Option String)
deriving DecidableEq, Repr

/-- Embeds `ObsidianAcpClient.requestPermission` (acpClient.ts lines 25-29):
the call is delegated verbatim to the host `onPermissionRequest` callback,
which in that client is a mandatory constructor argument. -/
def ObsidianAcpClient.requestPermission
    (onPermissionRequest : PermissionRequestParams → PermissionResponse)
    (params : PermissionRequestParams) : PermissionResponse :=
  onPermissionRequest params

/-- Modelled from the spec: the simplified request the correlation engine
builds for the host handler — the tool call, the offered option list and an
optional risk classification (section 4.6); the source file of the zed
transport adapter that builds it is absent from the sources. -/
def simplifyPermissionRequest (params : PermissionRequestParams) :
    PermissionRequest :=
  { toolCall := params.toolCall, options := some params.options,
    description := none }

/-- Modelled from the spec: the permission correlation engine of the zed
transport adapter (its source file is exported by
`src/acp-core/adapters/index.ts` but absent from the sources). Section 4.6:
on an agent permission request the engine (1) looks up the registered handler;
(2) with none registered it immediately answers cancelled; (3) otherwise it
invokes the handler with the simplified request; (4) it maps granted with an
option id to selected with that id, granted without an option id to selected
with the first allow-kind option, and a not-granted result to cancelled.
The spec leaves granted-without-id unspecified when no allow-kind option is
offered; this model answers cancelled there, and no claim relies on that
branch. Exactly one outcome per request is inherent: the engine is a total
function into `PermissionResponse`. -/
def resolvePermission
    (handler : Option (PermissionRequest → PermissionHandlerResponse))
    (params : PermissionRequestParams) : PermissionResponse :=
  match handler with
  | none => { outcome := .cancelled }
  | some h =>
    match h (simplifyPermissionRequest params) with
    | .denied _ => { outcome := .cancelled }
    | .granted (some id) => { outcome := .selected id }
    | .granted none =>
      match params.options.find?
          (fun o => o.kind == PermissionOptionKind.allowOnce
            || o.kind == PermissionOptionKind.allowAlways) with
      | some o => { outcome := .selected o.optionId }
      | none => { outcome := .cancelled }

/-! Stream events and the streaming facade, from `types.ts` (lines 785-870)
and, for the behavior, the spec (the zed transport adapter source is absent). -/

/-- Stop reasons of a prompt turn (`types.ts` `StopReason`). -/
inductive StopReason where
  | endTurn
  | toolUse
  | maxTokens
  | maxTurnRequests
  | refusal
  | cancelled
deriving DecidableEq, Repr

/-- The twelve outward stream event kinds (`types.ts` `StreamEvent`); payloads
are restricted to the fields the claims mention. -/
inductive StreamEvent where
  | messageStart (messageId : String)
  | textDelta (text : String)
  | thinkingDelta (text : String)
  | toolCallStart (toolCallId : String) (toolName : String)
  | toolCallDelta (toolCallId : String) (status : Option String)
  | toolCallComplete (toolCallId : String)
  | plan
  | modeChange (modeId : String)
  | commandsUpdate
  | sessionInfo
  | messageComplete (stopReason : StopReason)
  | error (message : String)
deriving DecidableEq, Repr

/-- Failure taxonomy of the facade (spec section 7), restricted to the kinds
the claims mention. -/
inductive AcpFailure where
  | notConnected
  | connectionError (message : String)
deriving DecidableEq, Repr

/-- Facade session (`types.ts` `Session`), restricted to the identity fields;
the timestamp and mode fields are not read by any claim. -/
structure Session where
  id : String
  cwd : String
  isActive : Bool
deriving DecidableEq, Repr

/-- Outcome of one run of the `sendMessage` generator: the events yielded
before termination and, when the generator raised instead of completing, the
terminal failure. An error with nothing yielded is a failure raised prior to
the first element of the sequence. -/
structure GenOutcome where
  yielded : List StreamEvent
  terminalError : Option AcpFailure
deriving DecidableEq, Repr

/-- Modelled from the spec: `sendMessage` of the zed transport adapter (facade
contract, section 4.2; the adapter source file is absent from the sources):
it "produces a lazy, finite, non-restartable sequence of Stream Events; fails
immediately (before yielding anything) with NotConnectedError if no Session
exists." The translated events of the turn and its stop reason are inputs;
with a session present they are yielded followed by exactly one
message-complete event. -/
def facadeSendMessage (session : Option Session)
    (turnEvents : List StreamEvent) (stop : StopReason) : GenOutcome :=
  match session with
  | none => { yielded := [], terminalError := some .notConnected }
  | some _ =>
      { yielded := turnEvents ++ [.messageComplete stop], terminalError := none }

/-- Modelled from the spec: `sendMessageSync` of the zed transport adapter —
it "drains `sendMessage` into a list; same failure contract" (section 4.2):
the drained call rejects with the failure the generator raised, otherwise it
resolves with the collected events. -/
def facadeSendMessageSync (session : Option Session)
    (turnEvents : List StreamEvent) (stop : StopReason) :
    Except AcpFailure (List StreamEvent) :=
  let g := facadeSendMessage session turnEvents stop
  match g.terminalError with
  | some e => Except.error e
  | none => Except.ok g.yielded

/-! Sample inputs used by witnesses and counterexamples. -/

/-- Connect environment in which the protocol handshake (the `initialize`
call) rejects while every earlier step succeeds. -/
def connectEnvHandshakeFail : ObsidianAcpClient.ConnectEnv :=
  { spawnOk := true, stdinPiped := true, stdoutPiped := true,
    handshakeOk := false, newSessionOk := true, sessionId := "sess-1" }

/-- Connect environment in which every step succeeds. -/
def connectEnvAllOk : ObsidianAcpClient.ConnectEnv :=
  { spawnOk := true, stdinPiped := true, stdoutPiped := true,
    handshakeOk := true, newSessionOk := true, sessionId := "sess-1" }

/-- A connected client state, as left by a successful `connect`. -/
def connectedState : ClientState :=
  { process := some { alive := true }, connection := true,
    currentSessionId := some "sess-1" }

/-- Sample protocol permission request with one allow option. -/
def samplePermissionParams : PermissionRequestParams :=
  { sessionId := "sess-1",
    toolCall := { toolCallId := "tc-1", title := some "Edit file" },
    options := [{ optionId := "allow-once", name := "Allow once",
                  kind := .allowOnce }] }

/-- Registry holding only the zed implementation, over a string client type. -/
def sampleRegistry : Registry String Unit :=
  { impls := [(.zed, fun _ => "zed-client")], defaultImplementation := .zed }

/-- Host permission handler granting with an explicit option id. -/
def grantHandler : PermissionRequest → PermissionHandlerResponse :=
  fun _ => .granted (some "allow-once")

/-- Host permission handler denying with a reason. -/
def denyHandler : PermissionRequest → PermissionHandlerResponse :=
  fun _ => .denied (some "user rejected")

/-! Helper lemmas shared by the claim theorems. -/

/-- Every element of a comma-joined list occurs verbatim inside the joined
string. -/
theorem joinComma_mem_decompose (names : List String) (nm : String)
    (h : nm ∈ names) : ∃ pre post, joinComma names = pre ++ nm ++ post := by
  induction names with
  | nil => cases h
  | cons a rest ih =>
    cases h with
    | head =>
      cases rest with
      | nil => exact ⟨"", "", by simp [joinComma]⟩
      | cons b r =>
        exact ⟨"", ", " ++ joinComma (b :: r), by
          simp [joinComma, String.append_assoc]⟩
    | tail _ hmem =>
      cases rest with
      | nil => cases hmem
      | cons b r =>
        obtain ⟨pre, post, hp⟩ := ih hmem
        exact ⟨a ++ ", " ++ pre, post, by
          simp [joinComma, hp, String.append_assoc]⟩

/-- After at least one `disconnect`, the client state equals the fields of a
freshly constructed client: all three fields null. -/
theorem disconnectN_succ_state (n : Nat) (s : ClientState) :
    (ObsidianAcpClient.disconnectN (n + 1) s).1 = initialState := by
  induction n generalizing s with
  | zero => rfl
  | succ m ih =>
    show (ObsidianAcpClient.disconnectN (m + 1)
      (ObsidianAcpClient.disconnect s).state).1 = initialState
    exact ih (ObsidianAcpClient.disconnect s).state

/-! Claim theorems. -/

/-- C1: for every incoming agent permission request, exactly one protocol
outcome is produced (the engine is a total function into a single
`PermissionResponse`); with no registered handler the answer is cancelled,
with a handler returning not-granted the answer is cancelled, and with a
handler returning granted with option id X the answer is selected with X. -/
theorem resolvePermission_outcome_cases (params : PermissionRequestParams)
    (h : PermissionRequest → PermissionHandlerResponse) (x : String)
    (r : Option String) :
    resolvePermission none params = { outcome := PermissionOutcome.cancelled }
    ∧ (h (simplifyPermissionRequest params) = PermissionHandlerResponse.denied r →
        resolvePermission (some h) params
          = { outcome := PermissionOutcome.cancelled })
    ∧ (h (simplifyPermissionRequest params)
          = PermissionHandlerResponse.granted (some x) →
        resolvePermission (some h) params
          = { outcome := PermissionOutcome.selected x }) := by
  refine ⟨rfl, ?_, ?_⟩ <;> intro hr <;> simp [resolvePermission, hr]

/-- C1 witness: the three outcome cases at a concrete request and concrete
handlers. -/
theorem resolvePermission_outcome_cases_witness :
    resolvePermission (some grantHandler) samplePermissionParams
      = { outcome := PermissionOutcome.selected "allow-once" }
    ∧ resolvePermission none samplePermissionParams
      = { outcome := PermissionOutcome.cancelled }
    ∧ resolvePermission (some denyHandler) samplePermissionParams
      = { outcome := PermissionOutcome.cancelled } :=
  ⟨(resolvePermission_outcome_cases samplePermissionParams grantHandler
      "allow-once" none).2.2 rfl,
   (resolvePermission_outcome_cases samplePermissionParams grantHandler
      "allow-once" none).1,
   (resolvePermission_outcome_cases samplePermissionParams denyHandler
      "allow-once" (some "user rejected")).2.1 rfl⟩

/-- C2 counterexample: with the handshake (`connection.initialize`) rejecting
and every earlier step succeeding, `connect` fails but sends no kill signal to
the child process, which stays alive in the client state — the claim that a
failing step leaves the child process killed is false on this input. -/
theorem connect_handshake_failure_keeps_process :
    (ObsidianAcpClient.connect connectEnvHandshakeFail initialState).failed = true
    ∧ (ObsidianAcpClient.connect connectEnvHandshakeFail initialState).killSignals = 0
    ∧ (ObsidianAcpClient.connect connectEnvHandshakeFail initialState).state.process
        = some { alive := true } :=
  ⟨rfl, rfl, rfl⟩

/-- C2 amended: `connect` performs spawn, stream-availability verification,
protocol handshake and session creation in that order (the attempted steps are
always a prefix of that order, and exactly the full order on success); if any
step fails, `connect` rejects and, starting from a disconnected client, no
partial session remains (`isConnected()` is false and the session id stays
null) — but the child process is NOT killed: no kill signal is sent on any
path of `connect`. -/
theorem connect_order_and_failure (env : ObsidianAcpClient.ConnectEnv)
    (s : ClientState) (hs : s.currentSessionId = none) :
    (∃ rest, (ObsidianAcpClient.connect env s).steps ++ rest
        = [ObsidianAcpClient.ConnectStep.spawn,
           ObsidianAcpClient.ConnectStep.verifyStreams,
           ObsidianAcpClient.ConnectStep.handshake,
           ObsidianAcpClient.ConnectStep.newSession])
    ∧ ((ObsidianAcpClient.connect env s).failed = false →
        (ObsidianAcpClient.connect env s).steps
          = [ObsidianAcpClient.ConnectStep.spawn,
             ObsidianAcpClient.ConnectStep.verifyStreams,
             ObsidianAcpClient.ConnectStep.handshake,
             ObsidianAcpClient.ConnectStep.newSession]
        ∧ ObsidianAcpClient.isConnected
            (ObsidianAcpClient.connect env s).state = true)
    ∧ ((ObsidianAcpClient.connect env s).failed = true →
        ObsidianAcpClient.isConnected
          (ObsidianAcpClient.connect env s).state = false
        ∧ (ObsidianAcpClient.connect env s).state.currentSessionId = none)
    ∧ (ObsidianAcpClient.connect env s).killSignals = 0 := by
  rcases env with ⟨sp, si, so, hsk, ns, sid⟩
  cases sp <;> cases si <;> cases so <;> cases hsk <;> cases ns <;>
    refine ⟨⟨_, rfl⟩, ?_, ?_, rfl⟩ <;> intro hf <;>
    simp_all [ObsidianAcpClient.connect, ObsidianAcpClient.isConnected]

/-- C2 amended witness: the success case connects, the handshake-failure case
leaves the client not connected. -/
theorem connect_order_and_failure_witness :
    ObsidianAcpClient.isConnected
      (ObsidianAcpClient.connect connectEnvAllOk initialState).state = true
    ∧ ObsidianAcpClient.isConnected
      (ObsidianAcpClient.connect connectEnvHandshakeFail initialState).state
        = false :=
  ⟨((connect_order_and_failure connectEnvAllOk initialState rfl).2.1 rfl).2,
   ((connect_order_and_failure connectEnvHandshakeFail initialState
      rfl).2.2.1 rfl).1⟩

/-- C3: with no active session, the facade `sendMessage` fails with the
not-connected error before yielding any stream event (nothing is yielded and
the terminal failure is `notConnected`), `sendMessageSync` rejects with the
same failure, and `ObsidianAcpClient.sendMessage` rejects with
`"Not connected"`. -/
theorem sendMessage_requires_session (s : ClientState)
    (turnEvents : List StreamEvent) (stop : StopReason)
    (promptResult : Except String String) (text : String)
    (hs : s.currentSessionId = none) :
    facadeSendMessage none turnEvents stop
      = { yielded := [], terminalError := some AcpFailure.notConnected }
    ∧ facadeSendMessageSync none turnEvents stop
      = Except.error AcpFailure.notConnected
    ∧ ObsidianAcpClient.sendMessage promptResult s text
      = Except.error "Not connected" := by
  refine ⟨rfl, rfl, ?_⟩
  simp [ObsidianAcpClient.sendMessage, ObsidianAcpClient.truthyId, hs]

/-- C3 witness: a never-connected client rejects `sendMessage` with
`"Not connected"`, and the drained facade call rejects the same way. -/
theorem sendMessage_requires_session_witness :
    ObsidianAcpClient.sendMessage (Except.ok "end_turn") initialState "ping"
      = Except.error "Not connected"
    ∧ facadeSendMessageSync none [] StopReason.endTurn
      = Except.error AcpFailure.notConnected :=
  ⟨(sendMessage_requires_session initialState [] StopReason.endTurn
      (Except.ok "end_turn") "ping" rfl).2.2,
   (sendMessage_requires_session initialState [] StopReason.endTurn
      (Except.ok "end_turn") "ping" rfl).2.1⟩

/-- C4: `disconnect` is idempotent — it is a total function (the source body
has no throw path, so it never raises), after any positive number of calls on
any state the client fields equal those of a never-connected client,
`isConnected()` is false and the session id is null, and one further call
leaves the state unchanged. Zero calls trivially leave any state unchanged by
the definition of `disconnectN`. -/
theorem disconnect_idempotent (s : ClientState) (n : Nat) (hn : 1 ≤ n) :
    (ObsidianAcpClient.disconnectN n s).1 = initialState
    ∧ ObsidianAcpClient.isConnected (ObsidianAcpClient.disconnectN n s).1 = false
    ∧ ObsidianAcpClient.getSessionId (ObsidianAcpClient.disconnectN n s).1 = none
    ∧ (ObsidianAcpClient.disconnectN (n + 1) s).1
        = (ObsidianAcpClient.disconnectN n s).1 := by
  obtain ⟨m, rfl⟩ : ∃ m, n = m + 1 := ⟨n - 1, by omega⟩
  have h1 := disconnectN_succ_state m s
  have h2 := disconnectN_succ_state (m + 1) s
  exact ⟨h1, by rw [h1]; rfl, by rw [h1]; rfl, by rw [h1, h2]⟩

/-- C4 witness: two disconnect calls on a connected client end in the
never-connected field values. -/
theorem disconnect_idempotent_witness :
    (ObsidianAcpClient.disconnectN 2 connectedState).1 = initialState :=
  (disconnect_idempotent connectedState 2 (by decide)).1

/-- C5 counterexample: an agent thought chunk carrying a text content block
produces no outward event — `sessionUpdate` has no `agent_thought_chunk` case,
so the chunk falls into the default branch; the claim that the text case of a
thought chunk is forwarded as a streamed text delta is false on this input. -/
theorem sessionUpdate_thought_text_dropped :
    ObsidianAcpClient.sessionUpdate
      (SessionUpdate.agentThoughtChunk (ContentBlock.text "hi"))
      = ([] : List ClientEvent)
    ∧ ObsidianAcpClient.sessionUpdate
      (SessionUpdate.agentThoughtChunk (ContentBlock.text "hi"))
      ≠ [ClientEvent.onMessage "hi"] := by
  exact ⟨rfl, by decide⟩

/-- C5 amended: among agent message chunks only the text content-block case is
forwarded (as an `onMessage` text delta); an agent message chunk with any
other content-block kind produces no outward event, and every thought chunk —
including the text case — and every user message chunk produces no outward
event. -/
theorem sessionUpdate_message_chunk_text_only (t : String) (c d : ContentBlock)
    (hc : ∀ u : String, c ≠ ContentBlock.text u) :
    ObsidianAcpClient.sessionUpdate (SessionUpdate.agentMessageChunk (ContentBlock.text t))
      = [ClientEvent.onMessage t]
    ∧ ObsidianAcpClient.sessionUpdate (SessionUpdate.agentMessageChunk c) = []
    ∧ ObsidianAcpClient.sessionUpdate (SessionUpdate.agentThoughtChunk d) = []
    ∧ ObsidianAcpClient.sessionUpdate (SessionUpdate.userMessageChunk d) = [] := by
  refine ⟨rfl, ?_, ?_, ?_⟩
  · cases c <;> first
      | rfl
      | exact absurd rfl (hc _)
  · cases d <;> rfl
  · cases d <;> rfl

/-- C5 amended witness: a text agent message chunk is forwarded, an image
agent message chunk is dropped, and a user message chunk carrying a text block
is dropped as well. -/
theorem sessionUpdate_message_chunk_text_only_witness :
    ObsidianAcpClient.sessionUpdate
      (SessionUpdate.agentMessageChunk (ContentBlock.text "hi"))
      = [ClientEvent.onMessage "hi"]
    ∧ ObsidianAcpClient.sessionUpdate
      (SessionUpdate.agentMessageChunk (ContentBlock.image "d" "image/png"))
      = []
    ∧ ObsidianAcpClient.sessionUpdate
      (SessionUpdate.userMessageChunk (ContentBlock.text "hi"))
      = [] :=
  ⟨(sessionUpdate_message_chunk_text_only "hi"
      (ContentBlock.image "d" "image/png") (ContentBlock.text "hi")
      (fun _ h => ContentBlock.noConfusion h)).1,
   (sessionUpdate_message_chunk_text_only "hi"
      (ContentBlock.image "d" "image/png") (ContentBlock.text "hi")
      (fun _ h => ContentBlock.noConfusion h)).2.1,
   (sessionUpdate_message_chunk_text_only "hi"
      (ContentBlock.image "d" "image/png") (ContentBlock.text "hi")
      (fun _ h => ContentBlock.noConfusion h)).2.2.2⟩

/-- C6: `createAcpClient` with a requested name (explicit or the selected
default) absent from the registry rejects with the error message that lists
every currently registered implementation name (each occurs verbatim in the
message); with the requested name registered, it returns the corresponding
factory applied to the config. -/
theorem createAcpClient_resolution {Client Config : Type}
    (reg : Registry Client Config) (config : Option Config)
    (implementation : Option AcpImplementation) :
    (mapGet reg.impls (implementation.getD reg.defaultImplementation) = none →
      createAcpClient reg config implementation
        = Except.error (unknownImplementationMessage
            (implementation.getD reg.defaultImplementation).name
            ((getRegisteredImplementations reg).map AcpImplementation.name))
      ∧ ∀ nm ∈ getRegisteredImplementations reg, ∃ pre post,
          unknownImplementationMessage
            (implementation.getD reg.defaultImplementation).name
            ((getRegisteredImplementations reg).map AcpImplementation.name)
          = pre ++ nm.name ++ post)
    ∧ (∀ f, mapGet reg.impls (implementation.getD reg.defaultImplementation)
          = some f →
        createAcpClient reg config implementation = Except.ok (f config)) := by
  constructor
  · intro hmiss
    constructor
    · simp [createAcpClient, hmiss]
    · intro nm hnm
      obtain ⟨pre, post, hp⟩ := joinComma_mem_decompose
        ((getRegisteredImplementations reg).map AcpImplementation.name)
        nm.name (List.mem_map_of_mem _ hnm)
      exact ⟨"Implementation \""
          ++ (implementation.getD reg.defaultImplementation).name
          ++ "\" is not registered. Available: " ++ pre, post, by
        simp [unknownImplementationMessage, hp, String.append_assoc]⟩
  · intro f hf
    simp [createAcpClient, hf]

/-- C6 witness: requesting the unregistered native implementation rejects with
the message listing the registered name zed; requesting zed returns the zed
factory client. -/
theorem createAcpClient_resolution_witness :
    createAcpClient sampleRegistry none (some AcpImplementation.native)
      = Except.error
          "Implementation \"native\" is not registered. Available: zed"
    ∧ createAcpClient sampleRegistry (none : Option Unit)
        (some AcpImplementation.zed) = Except.ok "zed-client" := by
  constructor
  · exact ((createAcpClient_resolution sampleRegistry none
      (some AcpImplementation.native)).1 rfl).1
  · exact (createAcpClient_resolution sampleRegistry none
      (some AcpImplementation.zed)).2 _ rfl

/-- C7 counterexample: clearing a registry that holds the zed implementation
leaves the set of registered names empty — in particular the baseline default
name zed is NOT registered afterwards, so the registry is emptied, not reset
to a one-element baseline. -/
theorem clearImplementations_empties :
    getRegisteredImplementations (clearImplementations sampleRegistry) = []
    ∧ AcpImplementation.zed
        ∉ getRegisteredImplementations (clearImplementations sampleRegistry) := by
  refine ⟨rfl, ?_⟩
  intro h
  simp [clearImplementations, getRegisteredImplementations] at h

/-- C7 amended: after `clearImplementations()` the set of registered names is
empty and the default implementation name is reset to the baseline default
zed; callers must re-register before creating a client. -/
theorem clearImplementations_resets (Client Config : Type)
    (reg : Registry Client Config) :
    getRegisteredImplementations (clearImplementations reg) = []
    ∧ (clearImplementations reg).defaultImplementation = AcpImplementation.zed :=
  ⟨rfl, rfl⟩

/-- C8: every agent `readTextFile` request is answered with the protocol-valid
result carrying empty content and every `writeTextFile` request with the empty
success response; both methods resolve on every input (no throw path), and the
client takes no host file-system handler, so this holds in particular when
none is supplied. -/
theorem fileSystem_default_answers (p : ObsidianAcpClient.ReadTextFileRequest)
    (q : ObsidianAcpClient.WriteTextFileRequest) :
    ObsidianAcpClient.readTextFile p = Except.ok { content := "" }
    ∧ ObsidianAcpClient.writeTextFile q = Except.ok {} :=
  ⟨rfl, rfl⟩

/-- C9: `AcpError.methodNotFound(m)` carries code -32601 and message
`"Method not found: "` followed by m; in particular for `"foo"` the code is
-32601 and the message is `"Method not found: foo"`. -/
theorem acpError_methodNotFound (m : String) :
    (AcpError.methodNotFound m).code = -32601
    ∧ (AcpError.methodNotFound m).message = "Method not found: " ++ m
    ∧ (AcpError.methodNotFound "foo").code = -32601
    ∧ (AcpError.methodNotFound "foo").message = "Method not found: foo" := by
  refine ⟨rfl, rfl, rfl, rfl⟩

/-- C10: every `disconnect` call fires the host `onDisconnected` callback
exactly once — on any state, including a never-connected client — so N
consecutive calls deliver exactly N disconnect notifications. -/
theorem disconnect_notifies_each_call (s : ClientState) (n : Nat) :
    (ObsidianAcpClient.disconnect s).events = [ClientEvent.onDisconnected]
    ∧ (ObsidianAcpClient.disconnectN n s).2
        = List.replicate n ClientEvent.onDisconnected := by
  refine ⟨rfl, ?_⟩
  induction n generalizing s with
  | zero => rfl
  | succ m ih =>
    simp [ObsidianAcpClient.disconnectN, ObsidianAcpClient.disconnect, ih,
      List.replicate_succ]

end ObsidianClaudeCode
